import Mathlib

/-!
Verification of the MDS message-processor core (`processor_core.go`) of the
amazon-ssm-agent. The Go functions are embedded shallowly: every observable
interaction with the state store, the MDS service, the worker pools and the
plugin runner is recorded as an `Effect` in the order the code performs it,
and each Go function becomes a Lean function from its inputs (including the
values returned by its external collaborators) to the list of effects it
emits, together with any updated document state.

Go string-typed enumerations (`ResultStatus`, `DocumentType`, folder names)
are embedded as `String` constants, so that Go zero values (empty strings)
are representable exactly as in the source.
-/

namespace SSMProcessor

/-- Embeds `contracts.Configuration`: the plugin configuration record. Its
fields are irrelevant to the processor core, which only moves it around, so
it is embedded as an opaque record with a single identifying field. -/
structure Configuration where
  settings : String
  deriving DecidableEq, Repr, Inhabited

/-- Embeds `contracts.PluginResult` (the fields the processor core reads:
`Status`, plus an opaque remainder). `Status` is a Go string type. -/
structure PluginResult where
  status : String
  output : String
  deriving DecidableEq, Repr, Inhabited

/-- Embeds `messageContracts.PluginState`. -/
structure PluginState where
  configuration : Configuration
  hasExecuted : Bool
  result : PluginResult
  deriving DecidableEq, Repr, Inhabited

/-- Embeds `messageContracts.DocumentInfo` (the fields the processor core
reads or writes). `RuntimeStatus` and `AdditionalInfo` are opaque to the
core and embedded as strings. -/
structure DocumentInfo where
  commandID : String
  messageID : String
  destination : String
  documentStatus : String
  runCount : Nat
  additionalInfo : String
  documentTraceOutput : String
  runtimeStatus : String
  deriving DecidableEq, Repr, Inhabited

/-- Embeds `messageContracts.CancelCommandInfo`. -/
structure CancelInformation where
  cancelMessageID : String
  cancelCommandID : String
  debugInfo : String
  deriving DecidableEq, Repr, Inhabited

/-- Embeds `messageContracts.DocumentState`. `PluginsInformation` is a Go
`map[string]PluginState`; it is embedded as an association list whose order
stands for the (unspecified) iteration order of the Go map. `isAssociation`
embeds the result of the helper predicate `IsAssociation()` (declared
outside this file's source; the spec describes it as a marker for documents
owned by the association subsystem). -/
structure DocumentState where
  documentType : String
  documentInformation : DocumentInfo
  pluginsInformation : List (String × PluginState)
  cancelInformation : CancelInformation
  isAssociation : Bool
  deriving DecidableEq, Repr, Inhabited

/-- Go: `contracts.ResultStatusInProgress`. -/
def resultStatusInProgress : String := "InProgress"

/-- Go: `contracts.ResultStatusSuccess`. -/
def resultStatusSuccess : String := "Success"

/-- Go: `contracts.ResultStatusFailed`. -/
def resultStatusFailed : String := "Failed"

/-- Go: `contracts.ResultStatusSuccessAndReboot`. -/
def resultStatusSuccessAndReboot : String := "SuccessAndReboot"

/-- Go: `appconfig.DefaultLocationOfPending`. -/
def defaultLocationOfPending : String := "pending"

/-- Go: `appconfig.DefaultLocationOfCurrent`. -/
def defaultLocationOfCurrent : String := "current"

/-- Go: `appconfig.DefaultLocationOfCompleted`. -/
def defaultLocationOfCompleted : String := "completed"

/-- Go: `appconfig.PluginNameAwsAgentUpdate`, the agent-self-update plugin
name. -/
def pluginNameAwsAgentUpdate : String := "aws:updateSsmAgent"

/-- Go: `messageContracts.SendCommand`. -/
def documentTypeSendCommand : String := "SendCommand"

/-- Go: `messageContracts.CancelCommand`. -/
def documentTypeCancelCommand : String := "CancelCommand"

/-- Go: `service.InternalHandlerException`. -/
def internalHandlerException : String := "InternalHandlerException"

/-- Modelled from the spec: the send-command topic routing string
(`SendCommandTopicPrefix`, declared outside the source file under
verification): "aws.ssm.sendCommand.". -/
def sendCommandTopic : String := "aws.ssm.sendCommand."

/-- Modelled from the spec: the cancel-command topic routing string
(`CancelCommandTopicPrefix`, declared outside the source file under
verification): "aws.ssm.cancelCommand.". -/
def cancelCommandTopic : String := "aws.ssm.cancelCommand."

/-- One observable interaction of the processor core with its collaborators:
the state store (`PersistData`, `PersistDocumentInfo`, `MoveCommandState`),
the MDS service (`SendResponse` replies, ack / fail / delete), the worker
pools (submit, cancel) and the plugin runner. -/
inductive Effect
  | persistData (folder : String) (doc : DocumentState)
  | persistDocumentInfo (folder : String) (info : DocumentInfo)
  | moveCommandState (commandID destination fromFolder toFolder : String)
  | sendResponse (messageID pluginName : String) (outputs : List (String × PluginResult))
  | docLevelResponse (messageID status info : String)
  | ackMessage (messageID : String)
  | failMessage (messageID reason : String)
  | deleteMessage (messageID : String)
  | invokeRunner (messageID : String) (configs : List (String × Configuration))
  | submitSendCommand (messageID : String)
  | submitCancelCommand (messageID : String)
  | poolCancel (messageID : String)
  deriving DecidableEq, Repr

/-- The reply payload produced by the external `buildReply` collaborator;
the core copies these four fields into the document info. -/
structure ReplyPayload where
  additionalInfo : String
  documentStatus : String
  documentTraceOutput : String
  runtimeStatus : String
  deriving DecidableEq, Repr, Inhabited

/-- The Go zero value `var documentInfo messageContracts.DocumentInfo`
created in `runCmdsUsingCmdState`. -/
def emptyDocumentInfo : DocumentInfo :=
  { commandID := "", messageID := "", destination := "", documentStatus := ""
    runCount := 0, additionalInfo := "", documentTraceOutput := "", runtimeStatus := "" }

/-- The four document-level fields both executors copy from the reply
payload into the document info before persisting it. -/
def mergeInfo (di : DocumentInfo) (p : ReplyPayload) : DocumentInfo :=
  { di with
      additionalInfo := p.additionalInfo
      documentStatus := p.documentStatus
      documentTraceOutput := p.documentTraceOutput
      runtimeStatus := p.runtimeStatus }

/-- Embeds `loadPluginConfigurations` (processor_core.go:410). Note the
source `break`s out of the loop at the first plugin with `HasExecuted`,
rather than skipping it. -/
def loadPluginConfigurations : List (String × PluginState) → List (String × Configuration)
  | [] => []
  | (pluginName, pluginConfig) :: rest =>
    if pluginConfig.hasExecuted then []
    else (pluginName, pluginConfig.configuration) :: loadPluginConfigurations rest

/-- The behaviour the spec ascribes to `loadPluginConfigurations` ("map of
plugin-name → configuration for every plugin where `HasExecuted = false`"),
stated from the spec's words for comparison with the source embedding. -/
def loadPluginConfigurationsSpec (plugins : List (String × PluginState)) :
    List (String × Configuration) :=
  (plugins.filter (fun p => !p.2.hasExecuted)).map (fun p => (p.1, p.2.configuration))

/-- Embeds the plugin-selection loop of `runCmdsUsingCmdState`
(processor_core.go:224): each already-executed plugin is skipped
individually (if/else, no break), the rest are collected in order. -/
def selectPendingConfigs : List (String × PluginState) → List (String × Configuration)
  | [] => []
  | (k, v) :: rest =>
    if v.hasExecuted then selectPendingConfigs rest
    else (k, v.configuration) :: selectPendingConfigs rest

/-- Embeds the `isUpdate` detection loop shared by `runCmdsUsingCmdState`
(processor_core.go:303) and `processSendCommandMessage`
(processor_core.go:479): it scans the plugin configurations selected for
this run, not the whole document. -/
def isAgentUpdateRun (configs : List (String × Configuration)) : Bool :=
  configs.any (fun p => p.1 == pluginNameAwsAgentUpdate)

/-- The outputs map rebuilt from persisted plugin information
(`outputs[k] = &v.Result`, processor_core.go:257). -/
def pluginOutputsOf (d : DocumentState) : List (String × PluginResult) :=
  d.pluginsInformation.map (fun p => (p.1, p.2.result))

/-- Embeds `processSendCommandMessage` (processor_core.go:424).
External collaborators enter as parameters: `buildReply` is the reply
builder, `runnerOutputs` is the value returned by `runPlugins`, and
`storedInfo` is the record returned by `GetDocumentInfo` from the current
folder. The function returns the ordered list of effects the executor
performs. -/
def processSendCommandMessage
    (buildReply : List (String × PluginResult) → ReplyPayload)
    (runnerOutputs : List (String × PluginResult))
    (storedInfo : DocumentInfo)
    (docState : DocumentState) : List Effect :=
  let pluginConfigurations := loadPluginConfigurations docState.pluginsInformation
  let payloadDoc := buildReply runnerOutputs
  let documentInfo := mergeInfo storedInfo payloadDoc
  Effect.invokeRunner docState.documentInformation.messageID pluginConfigurations ::
  Effect.persistDocumentInfo defaultLocationOfCurrent documentInfo ::
  (if documentInfo.documentStatus = resultStatusSuccessAndReboot then []
   else
    Effect.sendResponse docState.documentInformation.messageID "" runnerOutputs ::
    Effect.moveCommandState docState.documentInformation.commandID
      docState.documentInformation.destination
      defaultLocationOfCurrent defaultLocationOfCompleted ::
    (if isAgentUpdateRun pluginConfigurations then []
     else [Effect.deleteMessage docState.documentInformation.messageID]))

/-- Embeds `runCmdsUsingCmdState` (processor_core.go:210). `newCmdState` is
the record returned by `GetCommandInterimState` from the current folder
after the runner finished; the runner is only invoked when some plugin has
not yet executed. -/
def runCmdsUsingCmdState
    (buildReply : List (String × PluginResult) → ReplyPayload)
    (newCmdState : DocumentState)
    (command : DocumentState) : List Effect :=
  let pluginConfigurations := selectPendingConfigs command.pluginsInformation
  let runEffs :=
    if pluginConfigurations.isEmpty then []
    else [Effect.invokeRunner command.documentInformation.messageID pluginConfigurations]
  let outputs := pluginOutputsOf newCmdState
  let payloadDoc := buildReply outputs
  let documentInfo := mergeInfo emptyDocumentInfo payloadDoc
  runEffs ++
  Effect.persistDocumentInfo defaultLocationOfCurrent documentInfo ::
  (if documentInfo.documentStatus = resultStatusSuccessAndReboot then []
   else
    Effect.sendResponse command.documentInformation.messageID "" outputs ::
    Effect.moveCommandState newCmdState.documentInformation.commandID
      newCmdState.documentInformation.destination
      defaultLocationOfCurrent defaultLocationOfCompleted ::
    (if isAgentUpdateRun pluginConfigurations then []
     else [Effect.deleteMessage newCmdState.documentInformation.messageID]))

/-- Embeds `processCancelCommandMessage` (processor_core.go:544). `found`
is the value returned by `sendCommandPool.Cancel`. Returns the updated
document state alongside the effects. -/
def processCancelCommandMessage (found : Bool) (docState : DocumentState) :
    DocumentState × List Effect :=
  let doc' :=
    if found then
      { docState with
          cancelInformation := { docState.cancelInformation with
            debugInfo := "Command " ++ docState.cancelInformation.cancelCommandID ++ " cancelled" }
          documentInformation := { docState.documentInformation with
            documentStatus := resultStatusSuccess } }
    else
      { docState with
          cancelInformation := { docState.cancelInformation with
            debugInfo := "Command " ++ docState.cancelInformation.cancelCommandID ++ " couldn't be cancelled" }
          documentInformation := { docState.documentInformation with
            documentStatus := resultStatusFailed } }
  (doc',
   [Effect.poolCancel docState.cancelInformation.cancelMessageID,
    Effect.persistData defaultLocationOfCurrent doc',
    Effect.moveCommandState doc'.documentInformation.commandID
      doc'.documentInformation.destination
      defaultLocationOfCurrent defaultLocationOfCompleted,
    Effect.deleteMessage doc'.documentInformation.messageID])

/-- Embeds `submitDocForExecution` (processor_core.go:368): move the record
from pending to current first, then dispatch on the document type.
`submitOk` is whether the pool `Submit` call succeeds (a submit error is
only logged). -/
def submitDocForExecution (submitOk : Bool) (docState : DocumentState) : List Effect :=
  Effect.moveCommandState docState.documentInformation.commandID
    docState.documentInformation.destination
    defaultLocationOfPending defaultLocationOfCurrent ::
  (if docState.documentType = documentTypeSendCommand then
    if submitOk then [Effect.submitSendCommand docState.documentInformation.messageID] else []
   else if docState.documentType = documentTypeCancelCommand then
    if submitOk then [Effect.submitCancelCommand docState.documentInformation.messageID] else []
   else [])

/-- An incoming MDS message (`ssmmds.Message`): the four pointer-typed
fields the dispatcher touches, embedded as options (nil = none). -/
structure MdsMessage where
  messageId : Option String
  topic : Option String
  payload : Option String
  destination : Option String
  deriving DecidableEq, Repr

/-- Modelled from the spec: the structural validator `validate` (declared
outside the source file under verification). The spec: "Validate structural
fields (non-nil `MessageId`, `Topic`, `Payload`, `Destination`)". -/
def validate (msg : MdsMessage) : Bool :=
  msg.messageId.isSome && msg.topic.isSome && msg.payload.isSome && msg.destination.isSome

/-- The topic-routing and parsing step of `processMessage`
(processor_core.go:334): send-command prefix routes to the send parser,
cancel prefix to the cancel parser, any other topic is an error (`none`).
The parsers are external collaborators entering as parameters; `none`
stands for a parse error. -/
def routeAndParse
    (parseSendCommand parseCancelCommand : MdsMessage → Option DocumentState)
    (msg : MdsMessage) : Option DocumentState :=
  let topic := msg.topic.getD ""
  if topic.startsWith sendCommandTopic then parseSendCommand msg
  else if topic.startsWith cancelCommandTopic then parseCancelCommand msg
  else none

/-- Embeds `processMessage` (processor_core.go:318). Before anything else —
in particular before calling `validate` — the source dereferences
`*msg.MessageId` to build the per-message logger (processor_core.go:325),
so a message with nil `MessageId` panics with a nil-pointer dereference:
that outcome is `none`. Otherwise the function returns `some` of the
ordered effects: validate, route and parse, persist to pending, ack, emit
the document-level InProgress reply, submit for execution. `ackOk` is
whether `AcknowledgeMessage` succeeds (on failure the function returns
after the ack attempt). -/
def processMessage
    (parseSendCommand parseCancelCommand : MdsMessage → Option DocumentState)
    (ackOk submitOk : Bool) (msg : MdsMessage) : Option (List Effect) :=
  match msg.messageId with
  | none => none
  | some msgId =>
    some
      (if validate msg then
        match routeAndParse parseSendCommand parseCancelCommand msg with
        | none => [Effect.failMessage msgId internalHandlerException]
        | some docState =>
          Effect.persistData defaultLocationOfPending docState ::
          Effect.ackMessage msgId ::
          (if ackOk then
            Effect.docLevelResponse msgId resultStatusInProgress "" ::
            submitDocForExecution submitOk docState
           else [])
       else [])

/-- The result of reading one recovery file from disk: `loadError` embeds a
`jsonutil.UnmarshalFile` failure, `loaded` a successfully parsed
`DocumentState`. -/
inductive LoadResult
  | loadError
  | loaded (doc : DocumentState)
  deriving DecidableEq, Repr

/-- Embeds the pending-folder pass of `processOlderMessages`
(processor_core.go:82): an unmarshal error or an association document
`break`s the loop; every other document goes through
`submitDocForExecution` and the loop continues. -/
def processPendingFiles (submitOk : Bool) : List LoadResult → List Effect
  | [] => []
  | LoadResult.loadError :: _ => []
  | LoadResult.loaded doc :: rest =>
    if doc.isAssociation then []
    else submitDocForExecution submitOk doc ++ processPendingFiles submitOk rest

/-- Embeds the reboot-status rewrite loop of `processMessagesFromCurrent`
(processor_core.go:176): for every plugin with `HasExecuted` and status
SuccessAndReboot, rewrite the status to Success, add the result to the
shared `pluginOutputs` map, and emit a plugin-level response carrying the
map's contents at that point. Returns the updated plugin list, the final
outputs map and the emitted effects. -/
def rebootPass (messageID : String) :
    List (String × PluginState) → List (String × PluginResult) →
    List (String × PluginState) × List (String × PluginResult) × List Effect
  | [], outputs => ([], outputs, [])
  | (name, plugin) :: rest, outputs =>
    if plugin.hasExecuted && plugin.result.status == resultStatusSuccessAndReboot then
      let plugin' := { plugin with result := { plugin.result with status := resultStatusSuccess } }
      let outputs' := outputs ++ [(name, plugin'.result)]
      let r := rebootPass messageID rest outputs'
      ((name, plugin') :: r.1, r.2.1, Effect.sendResponse messageID name outputs' :: r.2.2)
    else
      let r := rebootPass messageID rest outputs
      ((name, plugin) :: r.1, r.2.1, r.2.2)

/-- Embeds the per-file body of the current-folder loop of
`processMessagesFromCurrent` (processor_core.go:141): an association or
poisoned (`RunCount ≥ CommandRetryLimit`) document `break`s the loop with
no effects; otherwise the run count is incremented, the reboot pass runs,
the updated record is persisted to current and the document is submitted
to the send-command pool. The returned flag is whether the loop
continues with the next file. -/
def processCurrentDoc (commandRetryLimit : Nat) (submitOk : Bool)
    (docState : DocumentState) : List Effect × Bool :=
  if docState.isAssociation then ([], false)
  else if commandRetryLimit ≤ docState.documentInformation.runCount then ([], false)
  else
    let info' := { docState.documentInformation with
      runCount := docState.documentInformation.runCount + 1 }
    let r := rebootPass info'.messageID docState.pluginsInformation []
    let docState' := { docState with documentInformation := info', pluginsInformation := r.1 }
    (r.2.2 ++
     Effect.persistData defaultLocationOfCurrent docState' ::
     (if submitOk then [Effect.submitSendCommand info'.messageID] else []),
     submitOk)

/-- Embeds the current-folder pass of `processMessagesFromCurrent`
(processor_core.go:116): files are processed in order; an unmarshal error,
an association document, a poisoned document or a submit failure stops the
pass. -/
def processMessagesFromCurrent (commandRetryLimit : Nat) (submitOk : Bool) :
    List LoadResult → List Effect
  | [] => []
  | LoadResult.loadError :: _ => []
  | LoadResult.loaded doc :: rest =>
    let r := processCurrentDoc commandRetryLimit submitOk doc
    if r.2 then r.1 ++ processMessagesFromCurrent commandRetryLimit submitOk rest
    else r.1

/-- Embeds `processOlderMessages` (processor_core.go:50): the pending pass
followed by the current pass. -/
def processOlderMessages (commandRetryLimit : Nat) (submitOk : Bool)
    (pendingFiles currentFiles : List LoadResult) : List Effect :=
  processPendingFiles submitOk pendingFiles ++
  processMessagesFromCurrent commandRetryLimit submitOk currentFiles

/-! Concrete sample data for witnesses and counterexamples. -/

/-- A sample plugin configuration. -/
def sampleConfig : Configuration := { settings := "cfg" }

/-- A plugin that has already executed with status Success. -/
def executedOk : PluginState :=
  { configuration := sampleConfig, hasExecuted := true
    result := { status := resultStatusSuccess, output := "done" } }

/-- A plugin that has already executed with status SuccessAndReboot. -/
def executedReboot : PluginState :=
  { configuration := sampleConfig, hasExecuted := true
    result := { status := resultStatusSuccessAndReboot, output := "" } }

/-- A plugin that has not executed yet. -/
def pendingPlugin : PluginState :=
  { configuration := sampleConfig, hasExecuted := false
    result := { status := "", output := "" } }

/-- Sample document-level information. -/
def sampleInfo : DocumentInfo :=
  { commandID := "cmd-1", messageID := "mid-1", destination := "i-1"
    documentStatus := resultStatusInProgress, runCount := 0
    additionalInfo := "", documentTraceOutput := "", runtimeStatus := "" }

/-- Sample cancel information. -/
def sampleCancelInfo : CancelInformation :=
  { cancelMessageID := "mid-0", cancelCommandID := "cmd-0", debugInfo := "" }

/-- A fresh send-command document with one not-yet-executed plugin. -/
def freshDoc : DocumentState :=
  { documentType := documentTypeSendCommand, documentInformation := sampleInfo
    pluginsInformation := [("p1", pendingPlugin)]
    cancelInformation := sampleCancelInfo, isAssociation := false }

/-- A document whose run count has already reached the retry limit 1. -/
def poisonedDoc : DocumentState :=
  { freshDoc with documentInformation := { sampleInfo with runCount := 1 } }

/-- A reply payload whose document status is SuccessAndReboot. -/
def sarPayload : ReplyPayload :=
  { additionalInfo := "ai", documentStatus := resultStatusSuccessAndReboot
    documentTraceOutput := "to", runtimeStatus := "rs" }

/-- A reply payload whose document status is Success. -/
def successPayload : ReplyPayload :=
  { additionalInfo := "ai", documentStatus := resultStatusSuccess
    documentTraceOutput := "to", runtimeStatus := "rs" }

/-! Theorems settling the claims. -/

/-- C6 (confirmed): for every cancel-command document, the executor sets
DocumentStatus to Success with DebugInfo "Command <id> cancelled" exactly
when `sendCommandPool.Cancel` found the job, Failed with DebugInfo
"Command <id> couldn't be cancelled" exactly when it did not, and in both
cases performs, in order: the pool cancel, a persist of the updated record
to current, the move from current to completed, and the MDS delete of the
cancel message. -/
theorem cancel_command_outcome (found : Bool) (docState : DocumentState) :
    ((processCancelCommandMessage found docState).1.documentInformation.documentStatus
        = resultStatusSuccess ∧
      (processCancelCommandMessage found docState).1.cancelInformation.debugInfo
        = "Command " ++ docState.cancelInformation.cancelCommandID ++ " cancelled"
      ↔ found = true) ∧
    ((processCancelCommandMessage found docState).1.documentInformation.documentStatus
        = resultStatusFailed ∧
      (processCancelCommandMessage found docState).1.cancelInformation.debugInfo
        = "Command " ++ docState.cancelInformation.cancelCommandID ++ " couldn't be cancelled"
      ↔ found = false) ∧
    (processCancelCommandMessage found docState).2 =
      [Effect.poolCancel docState.cancelInformation.cancelMessageID,
       Effect.persistData defaultLocationOfCurrent (processCancelCommandMessage found docState).1,
       Effect.moveCommandState docState.documentInformation.commandID
         docState.documentInformation.destination
         defaultLocationOfCurrent defaultLocationOfCompleted,
       Effect.deleteMessage docState.documentInformation.messageID] := by
  cases found <;>
    simp [processCancelCommandMessage, resultStatusSuccess, resultStatusFailed]

/-- C10 (confirmed): `submitDocForExecution` always moves the record from
pending to current first, and a document whose type is neither SendCommand
nor CancelCommand produces nothing beyond that move: it is not submitted to
any pool and stays in current. -/
theorem unknown_doc_type_moved_then_dropped (submitOk : Bool) (docState : DocumentState) :
    (∃ tail, submitDocForExecution submitOk docState =
      Effect.moveCommandState docState.documentInformation.commandID
        docState.documentInformation.destination
        defaultLocationOfPending defaultLocationOfCurrent :: tail) ∧
    (docState.documentType ≠ documentTypeSendCommand →
      docState.documentType ≠ documentTypeCancelCommand →
      submitDocForExecution submitOk docState =
        [Effect.moveCommandState docState.documentInformation.commandID
          docState.documentInformation.destination
          defaultLocationOfPending defaultLocationOfCurrent]) := by
  constructor
  · exact ⟨_, rfl⟩
  · intro h1 h2
    simp [submitDocForExecution, h1, h2]

/-- Witness for C10: a document of type "Association" is moved into current
and dropped. -/
theorem unknown_doc_type_moved_then_dropped_witness :
    submitDocForExecution true { freshDoc with documentType := "Association" } =
      [Effect.moveCommandState "cmd-1" "i-1" defaultLocationOfPending defaultLocationOfCurrent] :=
  (unknown_doc_type_moved_then_dropped true
      { freshDoc with documentType := "Association" }).2
    (by decide) (by decide)

/-- C9 (confirmed): an association document encountered by the pending pass
or by the current pass stops that pass at that file: no effect is produced
for it or for any later file of the same folder. -/
theorem association_doc_stops_scan (submitOk : Bool) (commandRetryLimit : Nat)
    (doc : DocumentState) (rest1 rest2 : List LoadResult)
    (h : doc.isAssociation = true) :
    processPendingFiles submitOk (LoadResult.loaded doc :: rest1) = [] ∧
    processMessagesFromCurrent commandRetryLimit submitOk
      (LoadResult.loaded doc :: rest2) = [] := by
  constructor
  · simp [processPendingFiles, h]
  · simp [processMessagesFromCurrent, processCurrentDoc, h]

/-- Witness for C9: a concrete association document halts both passes. -/
theorem association_doc_stops_scan_witness :
    processPendingFiles true
      [LoadResult.loaded { freshDoc with isAssociation := true },
       LoadResult.loaded freshDoc] = [] ∧
    processMessagesFromCurrent 5 true
      [LoadResult.loaded { freshDoc with isAssociation := true },
       LoadResult.loaded freshDoc] = [] :=
  association_doc_stops_scan true 5 { freshDoc with isAssociation := true }
    [LoadResult.loaded freshDoc] [LoadResult.loaded freshDoc] (by decide)

/-- C5 counterexample: a load error on the first file of pending (or of
current) does not merely skip that file: the following perfectly good
document is never submitted, though it would have produced effects had the
scan reached it. This refutes the claim that the scanner continues with the
remaining files of the folder. -/
theorem load_error_halts_scan_cex :
    processPendingFiles true [LoadResult.loadError, LoadResult.loaded freshDoc] = [] ∧
    processMessagesFromCurrent 5 true [LoadResult.loadError, LoadResult.loaded freshDoc] = [] ∧
    processPendingFiles true [LoadResult.loaded freshDoc] ≠ [] ∧
    processMessagesFromCurrent 5 true [LoadResult.loaded freshDoc] ≠ [] := by
  decide

/-- C5 (corrected): a read/unmarshal error on a file of pending (or of
current) stops the scan of that folder for the pass: the erroring file
produces no effect and no remaining file of that folder is processed. The
other pass is unaffected: after a pending-pass error the current pass still
runs in full. -/
theorem load_error_stops_folder_scan (submitOk : Bool) (commandRetryLimit : Nat)
    (rest1 rest2 currentFiles : List LoadResult) :
    processPendingFiles submitOk (LoadResult.loadError :: rest1) = [] ∧
    processMessagesFromCurrent commandRetryLimit submitOk
      (LoadResult.loadError :: rest2) = [] ∧
    processOlderMessages commandRetryLimit submitOk
      (LoadResult.loadError :: rest1) currentFiles =
      processMessagesFromCurrent commandRetryLimit submitOk currentFiles := by
  refine ⟨rfl, rfl, ?_⟩
  simp [processOlderMessages, processPendingFiles]

/-- C1 counterexample: with CommandRetryLimit = 1, a poisoned document
(RunCount = 1) at the head of the current folder is skipped, but the scan
does not continue: the fresh document behind it produces no effect at all,
though scanning it alone would have persisted and submitted it. This
refutes the claim that the scanner continues with the remaining files. -/
theorem poisoned_doc_halts_current_scan_cex :
    processMessagesFromCurrent 1 true
      [LoadResult.loaded poisonedDoc, LoadResult.loaded freshDoc] = [] ∧
    processMessagesFromCurrent 1 true [LoadResult.loaded freshDoc] ≠ [] := by
  decide

/-- C1 (corrected): a non-association document whose RunCount has reached
CommandRetryLimit is skipped with no effect whatsoever — no RunCount
increment is persisted, nothing is submitted, no reply is sent — and the
current-pass scan stops at it: the remaining files of the folder are not
processed in that pass. -/
theorem poisoned_doc_skipped_and_scan_stops (commandRetryLimit : Nat) (submitOk : Bool)
    (doc : DocumentState) (rest : List LoadResult)
    (hassoc : doc.isAssociation = false)
    (hlimit : commandRetryLimit ≤ doc.documentInformation.runCount) :
    processMessagesFromCurrent commandRetryLimit submitOk
      (LoadResult.loaded doc :: rest) = [] := by
  simp [processMessagesFromCurrent, processCurrentDoc, hassoc, hlimit]

/-- Witness for C1: the poisoned sample document halts the scan. -/
theorem poisoned_doc_skipped_and_scan_stops_witness :
    processMessagesFromCurrent 1 true
      [LoadResult.loaded poisonedDoc, LoadResult.loaded freshDoc] = [] :=
  poisoned_doc_skipped_and_scan_stops 1 true poisonedDoc
    [LoadResult.loaded freshDoc] (by decide) (by decide)

/-- C2 (code bug): `loadPluginConfigurations` `break`s at the first plugin
whose HasExecuted is true, so when an already-executed plugin precedes a
not-yet-executed one in the iteration order, the pending plugin is dropped
from the configuration map — contradicting the function's own doc comment
("returns plugin configurations that hasn't been executed") and the spec.
At the failing input the source returns the empty map while the specified
behaviour returns the pending plugin. -/
theorem loadPluginConfigurations_break_drops_pending_plugin :
    loadPluginConfigurations [("pluginA", executedOk), ("pluginB", pendingPlugin)] = [] ∧
    loadPluginConfigurationsSpec [("pluginA", executedOk), ("pluginB", pendingPlugin)] =
      [("pluginB", sampleConfig)] := by
  decide

/-- C3 (confirmed): whenever the reply built after plugin execution carries
DocumentStatus = SuccessAndReboot, both send-command execution paths stop
right after persisting the merged document info to the current folder: the
full effect list is the runner invocation followed by that persist, so no
document-level `sendResponse` is emitted, the record is not moved from
current to completed, and `DeleteMessage` is not called — the record
remains in current with its persisted info. -/
theorem reboot_status_suppresses_completion
    (buildReply : List (String × PluginResult) → ReplyPayload)
    (runnerOutputs : List (String × PluginResult))
    (storedInfo : DocumentInfo)
    (docState newCmdState command : DocumentState) :
    ((buildReply runnerOutputs).documentStatus = resultStatusSuccessAndReboot →
      processSendCommandMessage buildReply runnerOutputs storedInfo docState =
        [Effect.invokeRunner docState.documentInformation.messageID
          (loadPluginConfigurations docState.pluginsInformation),
         Effect.persistDocumentInfo defaultLocationOfCurrent
          (mergeInfo storedInfo (buildReply runnerOutputs))]) ∧
    ((buildReply (pluginOutputsOf newCmdState)).documentStatus = resultStatusSuccessAndReboot →
      runCmdsUsingCmdState buildReply newCmdState command =
        (if (selectPendingConfigs command.pluginsInformation).isEmpty then []
         else [Effect.invokeRunner command.documentInformation.messageID
                (selectPendingConfigs command.pluginsInformation)]) ++
        [Effect.persistDocumentInfo defaultLocationOfCurrent
          (mergeInfo emptyDocumentInfo (buildReply (pluginOutputsOf newCmdState)))]) := by
  constructor
  · intro h
    simp [processSendCommandMessage, mergeInfo, h]
  · intro h
    simp [runCmdsUsingCmdState, mergeInfo, h]

/-- Witness for C3: with a reply builder that reports SuccessAndReboot, the
executor stops after the persist on the sample document. -/
theorem reboot_status_suppresses_completion_witness :
    processSendCommandMessage (fun _ => sarPayload) [] sampleInfo freshDoc =
      [Effect.invokeRunner "mid-1" (loadPluginConfigurations freshDoc.pluginsInformation),
       Effect.persistDocumentInfo defaultLocationOfCurrent (mergeInfo sampleInfo sarPayload)] ∧
    runCmdsUsingCmdState (fun _ => sarPayload) freshDoc freshDoc =
      (if (selectPendingConfigs freshDoc.pluginsInformation).isEmpty then []
       else [Effect.invokeRunner "mid-1" (selectPendingConfigs freshDoc.pluginsInformation)]) ++
      [Effect.persistDocumentInfo defaultLocationOfCurrent
        (mergeInfo emptyDocumentInfo sarPayload)] :=
  ⟨(reboot_status_suppresses_completion (fun _ => sarPayload) [] sampleInfo
      freshDoc freshDoc freshDoc).1 rfl,
   (reboot_status_suppresses_completion (fun _ => sarPayload) [] sampleInfo
      freshDoc freshDoc freshDoc).2 rfl⟩

/-- A send-command document whose only plugin is the agent-self-update
plugin, already executed. -/
def selfUpdateExecutedDoc : DocumentState :=
  { freshDoc with pluginsInformation := [(pluginNameAwsAgentUpdate, executedOk)] }

/-- C4 counterexample: the self-update test scans the plugin configurations
selected for this run, not the whole document. First conjunct: a document
whose (only) plugin is the agent-self-update plugin, already executed, gets
its MDS message deleted anyway — refuting "for every document in which any
plugin is the self-update plugin, DeleteMessage is not called". Second
conjunct: a document with no self-update plugin whose reply status is
SuccessAndReboot produces no delete at all — refuting "for every document
with no self-update plugin, DeleteMessage is called exactly once". -/
theorem delete_skipped_only_for_selected_update_cex :
    Effect.deleteMessage "mid-1" ∈
      processSendCommandMessage (fun _ => successPayload) [] sampleInfo selfUpdateExecutedDoc ∧
    (∀ e ∈ processSendCommandMessage (fun _ => sarPayload) [] sampleInfo freshDoc,
      e ≠ Effect.deleteMessage "mid-1") := by
  decide

/-- C4 (corrected): provided the reply status is not SuccessAndReboot, each
send-command execution path skips `DeleteMessage` exactly when the
agent-self-update plugin appears among the plugin configurations it
selected for this run — for `processSendCommandMessage` the prefix of the
plugin collection before the first already-executed plugin
(`loadPluginConfigurations`), for `runCmdsUsingCmdState` the
not-yet-executed plugins (`selectPendingConfigs`) — in that case the
document-level reply and the move to completed still happen — and
otherwise the effect list ends with a single `DeleteMessage`, so the
delete happens exactly once. -/
theorem delete_message_iff_no_selected_update_plugin
    (buildReply : List (String × PluginResult) → ReplyPayload)
    (runnerOutputs : List (String × PluginResult))
    (storedInfo : DocumentInfo)
    (docState newCmdState command : DocumentState) :
    ((buildReply runnerOutputs).documentStatus ≠ resultStatusSuccessAndReboot →
      (isAgentUpdateRun (loadPluginConfigurations docState.pluginsInformation) = true →
        processSendCommandMessage buildReply runnerOutputs storedInfo docState =
          [Effect.invokeRunner docState.documentInformation.messageID
            (loadPluginConfigurations docState.pluginsInformation),
           Effect.persistDocumentInfo defaultLocationOfCurrent
            (mergeInfo storedInfo (buildReply runnerOutputs)),
           Effect.sendResponse docState.documentInformation.messageID "" runnerOutputs,
           Effect.moveCommandState docState.documentInformation.commandID
             docState.documentInformation.destination
             defaultLocationOfCurrent defaultLocationOfCompleted]) ∧
      (isAgentUpdateRun (loadPluginConfigurations docState.pluginsInformation) = false →
        processSendCommandMessage buildReply runnerOutputs storedInfo docState =
          [Effect.invokeRunner docState.documentInformation.messageID
            (loadPluginConfigurations docState.pluginsInformation),
           Effect.persistDocumentInfo defaultLocationOfCurrent
            (mergeInfo storedInfo (buildReply runnerOutputs)),
           Effect.sendResponse docState.documentInformation.messageID "" runnerOutputs,
           Effect.moveCommandState docState.documentInformation.commandID
             docState.documentInformation.destination
             defaultLocationOfCurrent defaultLocationOfCompleted,
           Effect.deleteMessage docState.documentInformation.messageID])) ∧
    ((buildReply (pluginOutputsOf newCmdState)).documentStatus ≠ resultStatusSuccessAndReboot →
      (isAgentUpdateRun (selectPendingConfigs command.pluginsInformation) = true →
        runCmdsUsingCmdState buildReply newCmdState command =
          (if (selectPendingConfigs command.pluginsInformation).isEmpty then []
           else [Effect.invokeRunner command.documentInformation.messageID
                  (selectPendingConfigs command.pluginsInformation)]) ++
          [Effect.persistDocumentInfo defaultLocationOfCurrent
            (mergeInfo emptyDocumentInfo (buildReply (pluginOutputsOf newCmdState))),
           Effect.sendResponse command.documentInformation.messageID ""
             (pluginOutputsOf newCmdState),
           Effect.moveCommandState newCmdState.documentInformation.commandID
             newCmdState.documentInformation.destination
             defaultLocationOfCurrent defaultLocationOfCompleted]) ∧
      (isAgentUpdateRun (selectPendingConfigs command.pluginsInformation) = false →
        runCmdsUsingCmdState buildReply newCmdState command =
          (if (selectPendingConfigs command.pluginsInformation).isEmpty then []
           else [Effect.invokeRunner command.documentInformation.messageID
                  (selectPendingConfigs command.pluginsInformation)]) ++
          [Effect.persistDocumentInfo defaultLocationOfCurrent
            (mergeInfo emptyDocumentInfo (buildReply (pluginOutputsOf newCmdState))),
           Effect.sendResponse command.documentInformation.messageID ""
             (pluginOutputsOf newCmdState),
           Effect.moveCommandState newCmdState.documentInformation.commandID
             newCmdState.documentInformation.destination
             defaultLocationOfCurrent defaultLocationOfCompleted,
           Effect.deleteMessage newCmdState.documentInformation.messageID])) := by
  refine ⟨fun hnr => ⟨fun hupd => ?_, fun hupd => ?_⟩,
          fun hnr => ⟨fun hupd => ?_, fun hupd => ?_⟩⟩
  · simp [processSendCommandMessage, mergeInfo, hnr, hupd]
  · simp [processSendCommandMessage, mergeInfo, hnr, hupd]
  · simp [runCmdsUsingCmdState, mergeInfo, hnr, hupd]
  · simp [runCmdsUsingCmdState, mergeInfo, hnr, hupd]

/-- A send-command document whose only plugin is the not-yet-executed
agent-self-update plugin. -/
def updPendingDoc : DocumentState :=
  { freshDoc with pluginsInformation := [(pluginNameAwsAgentUpdate, pendingPlugin)] }

/-- Witness for C4: on both execution paths, a document whose selected
configurations contain the not-yet-executed self-update plugin keeps its
MDS message, while the fresh sample document (no self-update plugin) gets
exactly one delete. -/
theorem delete_message_iff_no_selected_update_plugin_witness :
    (processSendCommandMessage (fun _ => successPayload) [] sampleInfo updPendingDoc =
      [Effect.invokeRunner "mid-1" (loadPluginConfigurations updPendingDoc.pluginsInformation),
       Effect.persistDocumentInfo defaultLocationOfCurrent (mergeInfo sampleInfo successPayload),
       Effect.sendResponse "mid-1" "" [],
       Effect.moveCommandState "cmd-1" "i-1" defaultLocationOfCurrent defaultLocationOfCompleted] ∧
     processSendCommandMessage (fun _ => successPayload) [] sampleInfo freshDoc =
      [Effect.invokeRunner "mid-1" (loadPluginConfigurations freshDoc.pluginsInformation),
       Effect.persistDocumentInfo defaultLocationOfCurrent (mergeInfo sampleInfo successPayload),
       Effect.sendResponse "mid-1" "" [],
       Effect.moveCommandState "cmd-1" "i-1" defaultLocationOfCurrent defaultLocationOfCompleted,
       Effect.deleteMessage "mid-1"]) ∧
    (runCmdsUsingCmdState (fun _ => successPayload) freshDoc updPendingDoc =
      (if (selectPendingConfigs updPendingDoc.pluginsInformation).isEmpty then []
       else [Effect.invokeRunner "mid-1" (selectPendingConfigs updPendingDoc.pluginsInformation)]) ++
      [Effect.persistDocumentInfo defaultLocationOfCurrent
        (mergeInfo emptyDocumentInfo successPayload),
       Effect.sendResponse "mid-1" "" (pluginOutputsOf freshDoc),
       Effect.moveCommandState "cmd-1" "i-1" defaultLocationOfCurrent defaultLocationOfCompleted] ∧
     runCmdsUsingCmdState (fun _ => successPayload) freshDoc freshDoc =
      (if (selectPendingConfigs freshDoc.pluginsInformation).isEmpty then []
       else [Effect.invokeRunner "mid-1" (selectPendingConfigs freshDoc.pluginsInformation)]) ++
      [Effect.persistDocumentInfo defaultLocationOfCurrent
        (mergeInfo emptyDocumentInfo successPayload),
       Effect.sendResponse "mid-1" "" (pluginOutputsOf freshDoc),
       Effect.moveCommandState "cmd-1" "i-1" defaultLocationOfCurrent defaultLocationOfCompleted,
       Effect.deleteMessage "mid-1"]) :=
  ⟨⟨((delete_message_iff_no_selected_update_plugin (fun _ => successPayload) [] sampleInfo
        updPendingDoc freshDoc updPendingDoc).1 (by decide)).1 (by decide),
    ((delete_message_iff_no_selected_update_plugin (fun _ => successPayload) [] sampleInfo
        freshDoc freshDoc freshDoc).1 (by decide)).2 (by decide)⟩,
   ⟨((delete_message_iff_no_selected_update_plugin (fun _ => successPayload) [] sampleInfo
        updPendingDoc freshDoc updPendingDoc).2 (by decide)).1 (by decide),
    ((delete_message_iff_no_selected_update_plugin (fun _ => successPayload) [] sampleInfo
        freshDoc freshDoc freshDoc).2 (by decide)).2 (by decide)⟩⟩

/-- A recovery document with one rebooted plugin and one pending plugin. -/
def rebootDoc : DocumentState :=
  { freshDoc with pluginsInformation := [("boot", executedReboot), ("p1", pendingPlugin)] }

/-- The reboot pass rewrites every executed SuccessAndReboot plugin to
Success in the plugin list it returns. -/
theorem rebootPass_rewrites_plugin (mid name : String) (ps : PluginState)
    (hex : ps.hasExecuted = true)
    (hst : ps.result.status = resultStatusSuccessAndReboot) :
    ∀ (plugins : List (String × PluginState)) (acc : List (String × PluginResult)),
      (name, ps) ∈ plugins →
      (name, { ps with result := { ps.result with status := resultStatusSuccess } }) ∈
        (rebootPass mid plugins acc).1 := by
  intro plugins
  induction plugins with
  | nil => intro acc h; exact absurd h (List.not_mem_nil _)
  | cons hd rest ih =>
    intro acc h
    obtain ⟨n, p⟩ := hd
    rcases List.mem_cons.mp h with h1 | h2
    · injection h1 with hn hp
      subst hn; subst hp
      simp [rebootPass, hex, hst]
    · by_cases hc : p.hasExecuted && p.result.status == resultStatusSuccessAndReboot
      · simp only [rebootPass, if_pos hc]
        exact List.mem_cons_of_mem _ (ih _ h2)
      · simp only [rebootPass, if_neg hc]
        exact List.mem_cons_of_mem _ (ih _ h2)

/-- The reboot pass emits a plugin-level response for every executed
SuccessAndReboot plugin. -/
theorem rebootPass_emits_response (mid name : String) (ps : PluginState)
    (hex : ps.hasExecuted = true)
    (hst : ps.result.status = resultStatusSuccessAndReboot) :
    ∀ (plugins : List (String × PluginState)) (acc : List (String × PluginResult)),
      (name, ps) ∈ plugins →
      ∃ outs, Effect.sendResponse mid name outs ∈ (rebootPass mid plugins acc).2.2 := by
  intro plugins
  induction plugins with
  | nil => intro acc h; exact absurd h (List.not_mem_nil _)
  | cons hd rest ih =>
    intro acc h
    obtain ⟨n, p⟩ := hd
    rcases List.mem_cons.mp h with h1 | h2
    · injection h1 with hn hp
      subst hn; subst hp
      refine ⟨acc ++ [(name, { ps.result with status := resultStatusSuccess })], ?_⟩
      simp [rebootPass, hex, hst]
    · by_cases hc : p.hasExecuted && p.result.status == resultStatusSuccessAndReboot
      · obtain ⟨outs, houts⟩ := ih (acc ++ [(n, { p.result with status := resultStatusSuccess })]) h2
        refine ⟨outs, ?_⟩
        simp only [rebootPass, if_pos hc]
        exact List.mem_cons_of_mem _ houts
      · obtain ⟨outs, houts⟩ := ih acc h2
        refine ⟨outs, ?_⟩
        simp only [rebootPass, if_neg hc]
        exact houts

/-- C7 (confirmed): during the current-pass recovery of a non-association,
non-poisoned document, every plugin with HasExecuted = true and result
status SuccessAndReboot is rewritten to Success in the document persisted
to the current folder, a plugin-level response is emitted for it by the
reboot pass, and the effect order is: reboot-pass responses, then the
persist to current, then (on success) the submit to the send-command
pool. -/
theorem reboot_resume_protocol (commandRetryLimit : Nat) (submitOk : Bool)
    (doc : DocumentState) (name : String) (ps : PluginState)
    (hassoc : doc.isAssociation = false)
    (hlimit : doc.documentInformation.runCount < commandRetryLimit)
    (hmem : (name, ps) ∈ doc.pluginsInformation)
    (hex : ps.hasExecuted = true)
    (hst : ps.result.status = resultStatusSuccessAndReboot) :
    processCurrentDoc commandRetryLimit submitOk doc =
      ((rebootPass doc.documentInformation.messageID doc.pluginsInformation []).2.2 ++
       Effect.persistData defaultLocationOfCurrent
         { doc with
             documentInformation := { doc.documentInformation with
               runCount := doc.documentInformation.runCount + 1 }
             pluginsInformation :=
               (rebootPass doc.documentInformation.messageID doc.pluginsInformation []).1 } ::
       (if submitOk then [Effect.submitSendCommand doc.documentInformation.messageID] else []),
       submitOk) ∧
    (name, { ps with result := { ps.result with status := resultStatusSuccess } }) ∈
      (rebootPass doc.documentInformation.messageID doc.pluginsInformation []).1 ∧
    ∃ outs, Effect.sendResponse doc.documentInformation.messageID name outs ∈
      (rebootPass doc.documentInformation.messageID doc.pluginsInformation []).2.2 := by
  refine ⟨?_, ?_, ?_⟩
  · simp [processCurrentDoc, hassoc, Nat.not_le.mpr hlimit]
  · exact rebootPass_rewrites_plugin _ name ps hex hst _ [] hmem
  · exact rebootPass_emits_response _ name ps hex hst _ [] hmem

/-- Witness for C7: in the sample recovery document the rebooted plugin is
re-stamped to Success by the reboot pass. -/
theorem reboot_resume_protocol_witness :
    ("boot", { executedReboot with
      result := { executedReboot.result with status := resultStatusSuccess } }) ∈
      (rebootPass rebootDoc.documentInformation.messageID
        rebootDoc.pluginsInformation []).1 :=
  (reboot_resume_protocol 1 true rebootDoc "boot" executedReboot
    (by decide) (by decide) (by decide) (by decide) (by decide)).2.1

/-- `submitDocForExecution` never emits a FailMessage effect. -/
theorem failMessage_not_in_submit (submitOk : Bool) (d : DocumentState) (id r : String) :
    Effect.failMessage id r ∉ submitDocForExecution submitOk d := by
  simp only [submitDocForExecution, List.mem_cons]
  intro h
  rcases h with h | h
  · exact Effect.noConfusion h
  · split at h <;> split at h <;>
      simp_all

/-- Unfolding of `processMessage` for a message whose MessageId is
present. -/
theorem processMessage_of_some_id
    (pSend pCancel : MdsMessage → Option DocumentState)
    (ackOk submitOk : Bool) (msg : MdsMessage) (msgId : String)
    (hm : msg.messageId = some msgId) :
    processMessage pSend pCancel ackOk submitOk msg =
      some
        (if validate msg then
          match routeAndParse pSend pCancel msg with
          | none => [Effect.failMessage msgId internalHandlerException]
          | some docState =>
            Effect.persistData defaultLocationOfPending docState ::
            Effect.ackMessage msgId ::
            (if ackOk then
              Effect.docLevelResponse msgId resultStatusInProgress "" ::
              submitDocForExecution submitOk docState
             else [])
         else []) := by
  rw [processMessage, hm]

/-- For a message whose MessageId is present (so the pre-validation
dereference of processor_core.go:325 does not panic), the ingress
dispatcher calls FailMessage with reason InternalHandlerException exactly
when the message passes structural validation but routing/parsing yields
no document (unknown topic or parse error); a message failing structural
validation produces no effect at all; and in the fail case the only
effect is the FailMessage itself — nothing is persisted to pending, no
ack is sent and nothing is submitted. -/
theorem ingress_fail_message_iff
    (pSend pCancel : MdsMessage → Option DocumentState)
    (ackOk submitOk : Bool) (msg : MdsMessage) (msgId : String)
    (hm : msg.messageId = some msgId) :
    (validate msg = false →
      processMessage pSend pCancel ackOk submitOk msg = some []) ∧
    (∀ effs, processMessage pSend pCancel ackOk submitOk msg = some effs →
      (Effect.failMessage msgId internalHandlerException ∈ effs ↔
        validate msg = true ∧ routeAndParse pSend pCancel msg = none)) ∧
    (validate msg = true → routeAndParse pSend pCancel msg = none →
      processMessage pSend pCancel ackOk submitOk msg =
        some [Effect.failMessage msgId internalHandlerException]) := by
  by_cases hv : validate msg = true
  · cases hp : routeAndParse pSend pCancel msg with
    | none =>
      have hpm : processMessage pSend pCancel ackOk submitOk msg =
          some [Effect.failMessage msgId internalHandlerException] := by
        rw [processMessage_of_some_id pSend pCancel ackOk submitOk msg msgId hm,
          if_pos hv, hp]
      refine ⟨?_, ?_, fun _ _ => hpm⟩
      · intro h
        rw [hv] at h
        exact absurd h (by simp)
      · intro effs heffs
        rw [hpm] at heffs
        injection heffs with he
        subst he
        simp [hv]
    | some d =>
      have hpm : processMessage pSend pCancel ackOk submitOk msg =
          some (Effect.persistData defaultLocationOfPending d ::
            Effect.ackMessage msgId ::
            (if ackOk then
              Effect.docLevelResponse msgId resultStatusInProgress "" ::
              submitDocForExecution submitOk d
             else [])) := by
        rw [processMessage_of_some_id pSend pCancel ackOk submitOk msg msgId hm,
          if_pos hv, hp]
      refine ⟨?_, ?_, ?_⟩
      · intro h
        rw [hv] at h
        exact absurd h (by simp)
      · intro effs heffs
        rw [hpm] at heffs
        injection heffs with he
        subst he
        constructor
        · intro hmem
          exfalso
          revert hmem
          cases ackOk <;> simp [failMessage_not_in_submit, List.mem_cons]
        · rintro ⟨-, hnone⟩
          exact Option.noConfusion hnone
      · intro _ hnone
        exact Option.noConfusion hnone
  · have hv' : validate msg = false := by
      cases h : validate msg
      · rfl
      · exact absurd h hv
    have hpm : processMessage pSend pCancel ackOk submitOk msg = some [] := by
      rw [processMessage_of_some_id pSend pCancel ackOk submitOk msg msgId hm,
        if_neg (by simp [hv'])]
    refine ⟨fun _ => hpm, ?_, fun hcontra => absurd hcontra hv⟩
    intro effs heffs
    rw [hpm] at heffs
    injection heffs with he
    subst he
    simp [hv']

/-- An MDS message with nil MessageId and every other field present. -/
def nilIdMsg : MdsMessage :=
  { messageId := none, topic := some (sendCommandTopic ++ "i-1")
    payload := some "x", destination := some "i-1" }

/-- A structurally valid message whose topic matches neither routing
string. -/
def badTopicMsg : MdsMessage :=
  { messageId := some "m1", topic := some "other.topic"
    payload := some "x", destination := some "i-1" }

/-- The positive part of C8 at a concrete input: the bad-topic sample
message is failed with InternalHandlerException and produces no other
effect. -/
theorem ingress_fail_message_iff_witness :
    processMessage (fun _ => none) (fun _ => none) true true badTopicMsg =
      some [Effect.failMessage "m1" internalHandlerException] :=
  (ingress_fail_message_iff (fun _ => none) (fun _ => none) true true badTopicMsg
    "m1" (by decide)).2.2 (by decide) (by decide)

/-- C8 (code bug): the dispatcher dereferences `*msg.MessageId` to build
its per-message logger (processor_core.go:325) before calling `validate`,
so an MDS message with nil MessageId — which the claim, the spec, and the
structural validator's own nil-MessageId check say is ignored without any
effect — panics with a nil-pointer dereference instead. At that input the
embedded dispatcher yields `none` (the panic), not `some []` (the graceful
ignore the claim requires). -/
theorem ingress_nil_message_id_crashes :
    processMessage (fun _ => none) (fun _ => none) true true nilIdMsg = none ∧
    processMessage (fun _ => none) (fun _ => none) true true nilIdMsg ≠ some [] := by
  decide

end SSMProcessor
